import Mathlib

/-!
Shallow embedding of the zentrol gesture-logging backend
(src/gestures/models.py, src/gestures/views.py, src/config/settings.py).

Conventions of the embedding:
* Django model rows become Lean structures; UUID primary keys and
  timestamps become `Nat` parameters supplied by the caller (the view
  functions receive the fresh UUID and the current clock explicitly).
* Python floats become `ℚ` (the code performs only exact arithmetic on
  them: defaults, sums, division by a count).
* The database becomes an explicit `DBState` (a list of rows per table),
  threaded through each request handler.
* A request body that fails JSON parsing is modelled as `none`;
  a parsed body is a record of `Option` fields (absent key = `none`),
  mirroring Python's `dict.get(key, default)`.
-/

/-- Row of the GestureLog table (src/gestures/models.py, class GestureLog). -/
structure GestureLog where
  logId : Nat
  userId : Option Nat
  session_id : String
  gesture_type : String
  confidence : ℚ
  frame_count : Int
  hand_x : Option ℚ
  hand_y : Option ℚ
  hand_z : Option ℚ
  detection_time_ms : ℚ
  frame_processing_time_ms : ℚ
  browser : String
  user_agent : String
  screen_resolution : String
  created_at : Nat
deriving Repr, DecidableEq

/-- Row of the PresentationSession table
(src/gestures/models.py, class PresentationSession). -/
structure PresentationSession where
  rowId : Nat
  userId : Option Nat
  session_id : String
  current_slide : Int := 0
  total_slides : Int := 0
  is_fullscreen : Bool := false
  is_presenting : Bool := false
  avg_latency_ms : ℚ := 0
  gesture_count : Int := 0
  started_at : Nat
  last_activity : Nat
  ended_at : Option Nat := none
deriving Repr, DecidableEq

/-- Row of the SystemPerformance table
(src/gestures/models.py, class SystemPerformance). -/
structure SystemPerformance where
  rowId : Nat
  sessionRef : Nat
  fps : ℚ := 0
  latency_ms : ℚ := 0
  cpu_usage : Option ℚ := none
  memory_usage_mb : Option ℚ := none
  false_positives : Int := 0
  false_negatives : Int := 0
  true_positives : Int := 0
  recorded_at : Nat := 0
deriving Repr, DecidableEq

/-- SystemPerformance.accuracy (src/gestures/models.py lines 99-102):
zero when the denominator is zero, otherwise TP/(TP+FP+FN). -/
def SystemPerformance.accuracy (p : SystemPerformance) : ℚ :=
  if p.true_positives + p.false_positives + p.false_negatives = 0 then 0
  else (p.true_positives : ℚ) /
    ((p.true_positives : ℚ) + (p.false_positives : ℚ) + (p.false_negatives : ℚ))

/-- The persistent store: the two tables the request handlers touch. -/
structure DBState where
  logs : List GestureLog
  sessions : List PresentationSession
deriving Repr, DecidableEq

/-- A parsed JSON body for the ingestion endpoint; each key is optional,
mirroring `data.get(key, default)` in log_gesture. -/
structure GestureData where
  session_id : Option String := none
  gesture_type : Option String := none
  confidence : Option ℚ := none
  frame_count : Option Int := none
  hand_x : Option ℚ := none
  hand_y : Option ℚ := none
  hand_z : Option ℚ := none
  detection_time_ms : Option ℚ := none
  frame_processing_time_ms : Option ℚ := none
  browser : Option String := none
  screen_resolution : Option String := none
deriving Repr, DecidableEq

/-- Response of the log_gesture endpoint: success JSON with the log id,
or an error JSON with an HTTP status. -/
inductive LogResponse where
  | ok (log_id : Nat)
  | badRequest (message : String)
deriving Repr, DecidableEq

/-- HTTP status carried by a LogResponse (JsonResponse default 200;
the Invalid JSON branch passes status=400). -/
def LogResponse.statusCode : LogResponse → Nat
  | .ok _ => 200
  | .badRequest _ => 400

/-- The session-update step of log_gesture (views.py lines 66-72):
`PresentationSession.objects.get(session_id=data.get('session_id'))`,
then increment gesture_count and set last_activity; DoesNotExist is
swallowed.  The lookup key is the raw `data.get('session_id')`, i.e.
`none` when the body omits the key, and `none` matches no row (the
column is non-null). -/
def updateSession (sessions : List PresentationSession) (key : Option String)
    (now : Nat) : List PresentationSession :=
  sessions.map fun s =>
    if some s.session_id = key then
      { s with gesture_count := s.gesture_count + 1, last_activity := now }
    else s

/-- log_gesture (views.py lines 44-79).  `body = none` models a JSON
parse failure.  `user` is the authenticated user (if any), `ua` the
User-Agent header, `now` the clock, `freshId` the UUID drawn for the
new row. -/
def log_gesture (body : Option GestureData) (user : Option Nat) (ua : String)
    (now : Nat) (freshId : Nat) (st : DBState) : LogResponse × DBState :=
  match body with
  | none => (LogResponse.badRequest "Invalid JSON", st)
  | some data =>
    let log : GestureLog := {
      logId := freshId
      userId := user
      session_id := data.session_id.getD "anonymous"
      gesture_type := data.gesture_type.getD "unknown"
      confidence := data.confidence.getD 0
      frame_count := data.frame_count.getD 1
      hand_x := data.hand_x
      hand_y := data.hand_y
      hand_z := data.hand_z
      detection_time_ms := data.detection_time_ms.getD 0
      frame_processing_time_ms := data.frame_processing_time_ms.getD 0
      browser := data.browser.getD ""
      user_agent := ua
      screen_resolution := data.screen_resolution.getD ""
      created_at := now }
    (LogResponse.ok freshId,
     { logs := st.logs ++ [log],
       sessions := updateSession st.sessions data.session_id now })

/-- presentation_view (views.py lines 22-37): get-or-create the session
by session_id; `freshUuid` is the UUID generated when the query
parameter is absent; returns the session_id placed in the rendered
page's context, together with the new store. -/
def presentation_view (sidParam : Option String) (freshUuid : String)
    (user : Option Nat) (rowId now : Nat) (st : DBState) : String × DBState :=
  let session_id := sidParam.getD freshUuid
  if st.sessions.any (fun s => s.session_id == session_id) then
    (session_id, st)
  else
    (session_id,
     { st with sessions := st.sessions ++ [{
         rowId := rowId
         userId := user
         session_id := session_id
         started_at := now
         last_activity := now }] })

/-- Session statistics payload (the dict built in session_stats);
gesture_types keeps Python dict insertion order as an association list. -/
structure SessionStats where
  total_gestures : Nat
  gesture_types : List (String × Nat)
  avg_confidence : ℚ
  avg_latency : ℚ
deriving Repr, DecidableEq

/-- Response of the session_stats action. -/
inductive StatsResponse where
  | ok (stats : SessionStats)
  | badRequest (error : String)
deriving Repr, DecidableEq

/-- HTTP status carried by a StatsResponse. -/
def StatsResponse.statusCode : StatsResponse → Nat
  | .ok _ => 200
  | .badRequest _ => 400

/-- One step of building the gesture_types dict:
`stats['gesture_types'][t] = stats['gesture_types'].get(t, 0) + 1`
(a Python dict update keeps the key's position). -/
def bumpCount (m : List (String × Nat)) (k : String) : List (String × Nat) :=
  match m with
  | [] => [(k, 1)]
  | (k', v) :: rest =>
    if k' = k then (k', v + 1) :: rest else (k', v) :: bumpCount rest k

/-- Lookup in the association list modelling the dict (absent key → 0,
matching Python's `.get(t, 0)` read). -/
def lookupCount (m : List (String × Nat)) (k : String) : Nat :=
  match m with
  | [] => 0
  | (k', v) :: rest => if k' = k then v else lookupCount rest k

/-- GestureLogViewSet.session_stats (views.py lines 88-112).
`sidParam = none` models an absent query parameter; Python's
`if not session_id` also fires on the empty string. -/
def session_stats (sidParam : Option String) (logs : List GestureLog) :
    StatsResponse :=
  let session_id := sidParam.getD ""
  if session_id = "" then StatsResponse.badRequest "session_id required"
  else
    let matching := logs.filter fun l => l.session_id == session_id
    let total := matching.length
    if 0 < total then
      StatsResponse.ok {
        total_gestures := total
        gesture_types := matching.foldl (fun m l => bumpCount m l.gesture_type) []
        avg_confidence := (matching.map GestureLog.confidence).sum / (total : ℚ)
        avg_latency := (matching.map GestureLog.detection_time_ms).sum / (total : ℚ) }
    else
      StatsResponse.ok {
        total_gestures := total
        gesture_types := []
        avg_confidence := 0
        avg_latency := 0 }

/-- Modelled from the spec: the router registers GestureLogViewSet, "a
conventional create/read/update/delete/list resource over GestureLog"
(spec section 4.3); the framework class ModelViewSet supplying the
destroy action is outside src/.  destroy deletes the addressed row. -/
def gestureLogViewSet_destroy (logId : Nat) (st : DBState) : DBState :=
  { st with logs := st.logs.filter fun l => !(l.logId == logId) }

/-- Modelled from the spec: same source as gestureLogViewSet_destroy;
the update action replaces the addressed row's contents. -/
def gestureLogViewSet_update (logId : Nat) (newRow : GestureLog)
    (st : DBState) : DBState :=
  { st with logs := st.logs.map fun l => if l.logId == logId then newRow else l }

/-- Environment sampled by is_serverless_environment
(src/config/settings.py lines 78-99). -/
structure ServerlessEnv where
  vercel : Option String
  awsLambdaFunctionName : Option String
  baseDir : String
  probeRaises : Bool
deriving Repr, DecidableEq

/-- Whether `pat` occurs as a contiguous substring of `s`
(Python's `pat in s` on strings), char-list prefix scan. -/
def startsWithChars : List Char → List Char → Bool
  | _, [] => true
  | [], _ :: _ => false
  | a :: as, b :: bs => a == b && startsWithChars as bs

/-- Substring scan over all suffixes. -/
def containsChars : List Char → List Char → Bool
  | [], pat => pat.isEmpty
  | s@(_ :: rest), pat => startsWithChars s pat || containsChars rest pat

/-- `pat in s` for strings. -/
def strContainsSub (s pat : String) : Bool :=
  containsChars s.toList pat.toList

/-- is_serverless_environment (settings.py lines 78-99): the four checks
in source order; `probeRaises` is whether the write-and-delete probe
raises OSError/PermissionError/IOError. -/
def is_serverless_environment (e : ServerlessEnv) : Bool :=
  if (e.vercel.getD "").toLower == "1" then true
  else if e.awsLambdaFunctionName.isSome then true
  else if strContainsSub e.baseDir "/var/task" || strContainsSub e.baseDir "/var/runtime" then true
  else if e.probeRaises then true
  else false

/-- C1: every syntactically valid JSON body posted to the ingestion
endpoint creates exactly one GestureLog row whose fields equal the
provided values, with each omitted field taking its documented default
(session_id→"anonymous", gesture_type→"unknown", confidence→0,
frame_count→1, timings→0, browser and screen_resolution→empty), and the
response is a success payload carrying the new log's identifier. -/
theorem log_gesture_creates_row_with_defaults (data : GestureData)
    (user : Option Nat) (ua : String) (now freshId : Nat) (st : DBState) :
    (log_gesture (some data) user ua now freshId st).2.logs =
      st.logs ++ [{
        logId := freshId, userId := user,
        session_id := data.session_id.getD "anonymous",
        gesture_type := data.gesture_type.getD "unknown",
        confidence := data.confidence.getD 0,
        frame_count := data.frame_count.getD 1,
        hand_x := data.hand_x, hand_y := data.hand_y, hand_z := data.hand_z,
        detection_time_ms := data.detection_time_ms.getD 0,
        frame_processing_time_ms := data.frame_processing_time_ms.getD 0,
        browser := data.browser.getD "", user_agent := ua,
        screen_resolution := data.screen_resolution.getD "",
        created_at := now }] ∧
    (log_gesture (some data) user ua now freshId st).1 =
      LogResponse.ok freshId :=
  ⟨rfl, rfl⟩

/-- C5: a malformed (non-JSON-parseable) body yields HTTP 400 with the
fixed error payload, with no GestureLog created and no
PresentationSession modified (the store is returned unchanged). -/
theorem log_gesture_malformed_json (user : Option Nat) (ua : String)
    (now freshId : Nat) (st : DBState) :
    log_gesture none user ua now freshId st =
      (LogResponse.badRequest "Invalid JSON", st) ∧
    (log_gesture none user ua now freshId st).1.statusCode = 400 :=
  ⟨rfl, rfl⟩

/-- C10: a session_stats request without the session_id query parameter
returns HTTP 400 with the fixed payload error "session_id required",
and no aggregation is performed. -/
theorem session_stats_missing_param (logs : List GestureLog) :
    session_stats none logs = StatsResponse.badRequest "session_id required" ∧
    (session_stats none logs).statusCode = 400 :=
  ⟨rfl, rfl⟩

/-- C9: serverless detection is the ordered first-positive-wins chain of
the four checks: VERCEL marker equals "1" (the code lowercases the
value first), AWS_LAMBDA_FUNCTION_NAME set, base directory containing
"/var/task" or "/var/runtime", then the write-and-delete probe, whose
filesystem exception yields serverless and whose success yields
writable. -/
theorem is_serverless_environment_spec (e : ServerlessEnv) :
    is_serverless_environment e =
      (((e.vercel.getD "").toLower == "1") || e.awsLambdaFunctionName.isSome ||
       strContainsSub e.baseDir "/var/task" || strContainsSub e.baseDir "/var/runtime" ||
       e.probeRaises) := by
  unfold is_serverless_environment
  cases h1 : (e.vercel.getD "").toLower == "1" <;>
    cases h2 : e.awsLambdaFunctionName.isSome <;>
      cases h3 : strContainsSub e.baseDir "/var/task" <;>
        cases h4 : strContainsSub e.baseDir "/var/runtime" <;>
          cases h5 : e.probeRaises <;> simp_all

/-- C8: accuracy() returns TP/(TP+FP+FN), and when the denominator is
zero the guarding branch returns 0 so the division is never reached. -/
theorem accuracy_spec (p : SystemPerformance) :
    (p.true_positives + p.false_positives + p.false_negatives = 0 →
      p.accuracy = 0) ∧
    (p.true_positives + p.false_positives + p.false_negatives ≠ 0 →
      p.accuracy = (p.true_positives : ℚ) /
        ((p.true_positives : ℚ) + (p.false_positives : ℚ) +
          (p.false_negatives : ℚ))) := by
  constructor
  · intro h
    simp [SystemPerformance.accuracy, h]
  · intro h
    simp [SystemPerformance.accuracy, h]

/-- Witness for C8: a record with all counters zero has accuracy 0 and a
record with TP=3, FP=1, FN=1 has accuracy 3/5. -/
theorem accuracy_spec_witness :
    ({ rowId := 0, sessionRef := 0 } : SystemPerformance).accuracy = 0 ∧
    ({
      rowId := 0, sessionRef := 0, true_positives := 3, false_positives := 1,
      false_negatives := 1 } : SystemPerformance).accuracy = 3 / 5 := by
  constructor
  · exact (accuracy_spec { rowId := 0, sessionRef := 0 }).1 (by decide)
  · have h := (accuracy_spec {
      rowId := 0, sessionRef := 0, true_positives := 3,
      false_positives := 1, false_negatives := 1 }).2 (by decide)
    rw [h]
    norm_num

/-- C7: when the posted body omits session_id, the created row gets
session_id "anonymous" but the session-update lookup uses the raw
`None` key, so the session table — including any session whose
session_id is literally "anonymous" — is left unchanged. -/
theorem log_gesture_omitted_session_id (data : GestureData)
    (hnone : data.session_id = none) (user : Option Nat) (ua : String)
    (now freshId : Nat) (st : DBState) :
    (log_gesture (some data) user ua now freshId st).2.sessions = st.sessions ∧
    ∃ l, (log_gesture (some data) user ua now freshId st).2.logs =
      st.logs ++ [l] ∧ l.session_id = "anonymous" := by
  constructor
  · simp [log_gesture, updateSession, hnone]
  · exact ⟨_, rfl, by simp [hnone]⟩

/-- Witness for C7: posting a body with no session_id against a store
holding a session whose session_id is "anonymous" leaves the session
table unchanged. -/
theorem log_gesture_omitted_session_id_witness :
    (log_gesture (some {}) none "" 9 5
      { logs := [],
        sessions := [{
          rowId := 1, userId := none, session_id := "anonymous",
          started_at := 0, last_activity := 0 }] }).2.sessions =
      [{
        rowId := 1, userId := none, session_id := "anonymous",
        started_at := 0, last_activity := 0 }] :=
  (log_gesture_omitted_session_id {} rfl none "" 9 5 _).1

/-- Number of session rows carrying a given session_id. -/
def countSid (sessions : List PresentationSession) (sid : String) : Nat :=
  (sessions.filter fun s => s.session_id == sid).length

theorem countSid_zero_iff (sessions : List PresentationSession) (sid : String) :
    countSid sessions sid = 0 ↔
      sessions.any (fun s => s.session_id == sid) = false := by
  simp [countSid, List.length_eq_zero, List.filter_eq_nil_iff, List.any_eq_false]

theorem countSid_pos_of_any {sessions : List PresentationSession} {sid : String}
    (h : sessions.any (fun s => s.session_id == sid) = true) :
    0 < countSid sessions sid := by
  obtain ⟨x, hx, hpx⟩ := List.any_eq_true.mp h
  exact List.length_pos_of_mem (List.mem_filter.mpr ⟨hx, hpx⟩)

/-- C2: posting with a session_id equal to an existing session's id
increments exactly that session's gesture_count by 1 and sets its
last_activity to the request time (advancing it), all other sessions
and the success response being as usual; posting with a session_id
matching no session leaves every session row unchanged and still
succeeds. -/
theorem log_gesture_session_update (data : GestureData) (sid : String)
    (hsid : data.session_id = some sid) (user : Option Nat) (ua : String)
    (now freshId : Nat) (st : DBState) :
    (log_gesture (some data) user ua now freshId st).1 = LogResponse.ok freshId ∧
    (log_gesture (some data) user ua now freshId st).2.sessions =
      st.sessions.map (fun s =>
        if s.session_id = sid then
          { s with gesture_count := s.gesture_count + 1, last_activity := now }
        else s) ∧
    (∀ s, s ∈ st.sessions → s.session_id = sid → s.last_activity < now →
      ∃ s', s' ∈ (log_gesture (some data) user ua now freshId st).2.sessions ∧
        s'.session_id = sid ∧ s'.gesture_count = s.gesture_count + 1 ∧
        s.last_activity < s'.last_activity) ∧
    ((∀ t, t ∈ st.sessions → t.session_id ≠ sid) →
      (log_gesture (some data) user ua now freshId st).2.sessions = st.sessions) := by
  have hmap : (log_gesture (some data) user ua now freshId st).2.sessions =
      st.sessions.map (fun s =>
        if s.session_id = sid then
          { s with gesture_count := s.gesture_count + 1, last_activity := now }
        else s) := by
    simp [log_gesture, updateSession, hsid]
  refine ⟨rfl, hmap, ?_, ?_⟩
  · intro s hs hs' hlt
    refine ⟨{ s with gesture_count := s.gesture_count + 1, last_activity := now },
      ?_, hs', rfl, hlt⟩
    rw [hmap]
    exact List.mem_map.mpr ⟨s, hs, by simp [hs']⟩
  · intro h
    rw [hmap]
    have h2 : st.sessions.map (fun s =>
        if s.session_id = sid then
          { s with gesture_count := s.gesture_count + 1, last_activity := now }
        else s) = st.sessions.map id :=
      List.map_congr_left (fun s hs => if_neg (h s hs))
    rw [h2, List.map_id]

/-- Witness for C2: logging a gesture for session "abc" against a store
holding exactly that session bumps its gesture_count from 0 to 1 and
moves last_activity from 0 to 5. -/
theorem log_gesture_session_update_witness :
    (log_gesture (some { session_id := some "abc" }) none "" 5 7
      { logs := [],
        sessions := [{
          rowId := 1, userId := none, session_id := "abc",
          started_at := 0, last_activity := 0 }] }).2.sessions =
      [{
        rowId := 1, userId := none, session_id := "abc", gesture_count := 1,
        started_at := 0, last_activity := 5 }] := by
  have h := (log_gesture_session_update { session_id := some "abc" } "abc" rfl
    none "" 5 7
    { logs := [],
      sessions := [{
        rowId := 1, userId := none, session_id := "abc",
        started_at := 0, last_activity := 0 }] }).2.1
  rw [h]
  rfl

/-- C6: requesting the presentation page is idempotent in session
creation: two requests with the same session_id parameter resolve to
the same single session row (no duplicate, session_id stays unique),
while a request omitting session_id under a fresh generated UUID
appends one new session. -/
theorem presentation_view_get_or_create (st : DBState) :
    (∀ sid f1 f2 u1 u2 p1 p2 n1 n2, countSid st.sessions sid ≤ 1 →
      (presentation_view (some sid) f1 u1 p1 n1 st).1 = sid ∧
      (presentation_view (some sid) f2 u2 p2 n2
          (presentation_view (some sid) f1 u1 p1 n1 st).2).1 = sid ∧
      countSid (presentation_view (some sid) f1 u1 p1 n1 st).2.sessions sid = 1 ∧
      (presentation_view (some sid) f2 u2 p2 n2
          (presentation_view (some sid) f1 u1 p1 n1 st).2).2 =
        (presentation_view (some sid) f1 u1 p1 n1 st).2) ∧
    (∀ fresh u p n, countSid st.sessions fresh = 0 →
      (presentation_view none fresh u p n st).2.sessions =
        st.sessions ++ [{
          rowId := p, userId := u, session_id := fresh,
          started_at := n, last_activity := n }] ∧
      (presentation_view none fresh u p n st).1 = fresh) := by
  constructor
  · intro sid f1 f2 u1 u2 p1 p2 n1 n2 huniq
    by_cases hany : st.sessions.any (fun s => s.session_id == sid) = true
    · have h1 : presentation_view (some sid) f1 u1 p1 n1 st = (sid, st) := by
        simp [presentation_view, hany]
      have h2 : presentation_view (some sid) f2 u2 p2 n2 st = (sid, st) := by
        simp [presentation_view, hany]
      rw [h1, h2]
      exact ⟨rfl, rfl, Nat.le_antisymm huniq (countSid_pos_of_any hany), rfl⟩
    · have hany' : st.sessions.any (fun s => s.session_id == sid) = false :=
        Bool.not_eq_true _ ▸ Bool.eq_false_iff.mpr (fun hc => hany hc)
      have h1 : presentation_view (some sid) f1 u1 p1 n1 st =
          (sid, { st with sessions := st.sessions ++ [{
            rowId := p1, userId := u1, session_id := sid,
            started_at := n1, last_activity := n1 }] }) := by
        simp [presentation_view, hany']
      have hmem : (st.sessions ++ [({
          rowId := p1, userId := u1, session_id := sid,
          started_at := n1, last_activity := n1 } : PresentationSession)]).any
            (fun s => s.session_id == sid) = true := by
        rw [List.any_append]
        simp
      have h2 : presentation_view (some sid) f2 u2 p2 n2
          ({ st with sessions := st.sessions ++ [{
            rowId := p1, userId := u1, session_id := sid,
            started_at := n1, last_activity := n1 }] } : DBState) =
          (sid, { st with sessions := st.sessions ++ [{
            rowId := p1, userId := u1, session_id := sid,
            started_at := n1, last_activity := n1 }] }) := by
        simp [presentation_view, hmem]
      have hcount : countSid (st.sessions ++ [({
          rowId := p1, userId := u1, session_id := sid,
          started_at := n1, last_activity := n1 } : PresentationSession)]) sid = 1 := by
        unfold countSid
        rw [List.filter_append]
        have hz := (countSid_zero_iff st.sessions sid).mpr hany'
        unfold countSid at hz
        rw [List.length_append, hz]
        simp
      rw [h1, h2]
      exact ⟨rfl, rfl, hcount, rfl⟩
  · intro fresh u p n hfresh
    have hany' : st.sessions.any (fun s => s.session_id == fresh) = false :=
      (countSid_zero_iff st.sessions fresh).mp hfresh
    constructor
    · simp [presentation_view, hany']
    · simp [presentation_view, hany']

/-- Witness for C6: on an empty store, a request with session_id "s1"
creates the single session row for "s1", and a request omitting the
parameter under fresh UUID "u9" appends a new session. -/
theorem presentation_view_get_or_create_witness :
    countSid ((presentation_view (some "s1") "f" none 1 0
        { logs := [], sessions := [] }).2).sessions "s1" = 1 ∧
    (presentation_view none "u9" none 2 3
        { logs := [], sessions := [] }).2.sessions =
      [{
        rowId := 2, userId := none, session_id := "u9",
        started_at := 3, last_activity := 3 }] := by
  constructor
  · exact ((presentation_view_get_or_create { logs := [], sessions := [] }).1
      "s1" "f" "f" none none 1 1 0 0 (by decide)).2.2.1
  · exact ((presentation_view_get_or_create { logs := [], sessions := [] }).2
      "u9" none 2 3 (by decide)).1

theorem lookupCount_bumpCount (m : List (String × Nat)) (k k' : String) :
    lookupCount (bumpCount m k') k =
      lookupCount m k + (if k' = k then 1 else 0) := by
  induction m with
  | nil =>
    by_cases h : k' = k <;> simp [bumpCount, lookupCount, h]
  | cons p rest ih =>
    obtain ⟨a, v⟩ := p
    by_cases h1 : a = k' <;> by_cases h2 : a = k
    · subst h1; subst h2
      simp [bumpCount, lookupCount]
    · subst h1
      simp [bumpCount, lookupCount, h2]
    · subst h2
      have hk' : ¬ (k' = a) := fun h => h1 h.symm
      simp [bumpCount, lookupCount, h1, hk']
    · simp [bumpCount, lookupCount, h1, h2, ih]

theorem lookupCount_foldl (l : List GestureLog) (m : List (String × Nat))
    (k : String) :
    lookupCount (l.foldl (fun acc x => bumpCount acc x.gesture_type) m) k =
      lookupCount m k + (l.filter fun x => x.gesture_type == k).length := by
  induction l generalizing m with
  | nil => simp
  | cons x xs ih =>
    rw [List.foldl_cons, ih, lookupCount_bumpCount]
    by_cases h : x.gesture_type = k
    · simp only [List.filter_cons, h]
      simp
      omega
    · simp only [List.filter_cons]
      simp [h]

/-- C3: for a non-empty session_id, session_stats returns total_gestures
equal to the number of matching rows, a gesture_types mapping whose
count for every type equals the number of matching rows of that type,
and averages equal to the arithmetic means of confidence and
detection_time_ms over the matching rows; with no matching rows all
aggregates come back zeroed rather than as an error. -/
theorem session_stats_aggregates (sid : String) (hsid : sid ≠ "")
    (logs : List GestureLog) :
    ∃ stats, session_stats (some sid) logs = StatsResponse.ok stats ∧
      stats.total_gestures = (logs.filter fun l => l.session_id == sid).length ∧
      (∀ t, lookupCount stats.gesture_types t =
        ((logs.filter fun l => l.session_id == sid).filter
          fun l => l.gesture_type == t).length) ∧
      ((logs.filter fun l => l.session_id == sid).length ≠ 0 →
        stats.avg_confidence =
          ((logs.filter fun l => l.session_id == sid).map
            GestureLog.confidence).sum /
            (((logs.filter fun l => l.session_id == sid).length : ℚ)) ∧
        stats.avg_latency =
          ((logs.filter fun l => l.session_id == sid).map
            GestureLog.detection_time_ms).sum /
            (((logs.filter fun l => l.session_id == sid).length : ℚ))) ∧
      ((logs.filter fun l => l.session_id == sid).length = 0 →
        stats = { total_gestures := 0, gesture_types := [],
                  avg_confidence := 0, avg_latency := 0 }) := by
  unfold session_stats
  simp only [Option.getD_some]
  rw [if_neg hsid]
  by_cases hpos : 0 < (logs.filter fun l => l.session_id == sid).length
  · rw [if_pos hpos]
    refine ⟨_, rfl, rfl, ?_, fun _ => ⟨rfl, rfl⟩, ?_⟩
    · intro t
      rw [lookupCount_foldl]
      simp [lookupCount]
    · intro h0
      exact absurd h0 (by omega)
  · rw [if_neg hpos]
    have hzero : (logs.filter fun l => l.session_id == sid).length = 0 := by omega
    have hnil : (logs.filter fun l => l.session_id == sid) = [] :=
      List.length_eq_zero.mp hzero
    refine ⟨_, rfl, rfl, ?_, fun h => absurd hzero h, ?_⟩
    · intro t
      rw [hnil]
      simp [lookupCount]
    · intro _
      simp [hzero]

/-- Concrete logs used to instantiate the session_stats theorem. -/
def c3log1 : GestureLog :=
  {
    logId := 1, userId := none, session_id := "s", gesture_type := "fist",
    confidence := 1 / 2, frame_count := 1, hand_x := none, hand_y := none,
    hand_z := none, detection_time_ms := 40, frame_processing_time_ms := 0,
    browser := "", user_agent := "", screen_resolution := "", created_at := 0 }

/-- Second concrete log for the session_stats witness. -/
def c3log2 : GestureLog :=
  {
    logId := 2, userId := none, session_id := "s", gesture_type := "fist",
    confidence := 1, frame_count := 1, hand_x := none, hand_y := none,
    hand_z := none, detection_time_ms := 60, frame_processing_time_ms := 0,
    browser := "", user_agent := "", screen_resolution := "", created_at := 0 }

/-- Witness for C3: two logs for session "s", both of type "fist", give
total 2 and a count of 2 for "fist". -/
theorem session_stats_aggregates_witness :
    ∃ stats, session_stats (some "s") [c3log1, c3log2] = StatsResponse.ok stats ∧
      stats.total_gestures = 2 ∧ lookupCount stats.gesture_types "fist" = 2 := by
  obtain ⟨stats, h1, h2, h3, _, _⟩ :=
    session_stats_aggregates "s" (by decide) [c3log1, c3log2]
  refine ⟨stats, h1, ?_, ?_⟩
  · rw [h2]
    rfl
  · rw [h3]
    rfl

/-- A concrete GestureLog row used to exhibit the REST resource's
update/destroy actions. -/
def sampleLog : GestureLog :=
  {
    logId := 1, userId := none, session_id := "s", gesture_type := "fist",
    confidence := 0, frame_count := 1, hand_x := none, hand_y := none,
    hand_z := none, detection_time_ms := 0, frame_processing_time_ms := 0,
    browser := "", user_agent := "", screen_resolution := "", created_at := 0 }

/-- A distinct replacement row for the update action. -/
def sampleLog2 : GestureLog :=
  {
    logId := 1, userId := none, session_id := "s", gesture_type := "ok",
    confidence := 0, frame_count := 1, hand_x := none, hand_y := none,
    hand_z := none, detection_time_ms := 0, frame_processing_time_ms := 0,
    browser := "", user_agent := "", screen_resolution := "", created_at := 0 }

/-- C4 counterexample: the REST resource's destroy action (exposed by
registering the ModelViewSet on the router) deletes a GestureLog row,
so the application does expose an operation removing GestureLog rows. -/
theorem gestureLog_destroy_counterexample :
    sampleLog ∈ (DBState.mk [sampleLog] []).logs ∧
    sampleLog ∉ (gestureLogViewSet_destroy 1 (DBState.mk [sampleLog] [])).logs := by
  constructor
  · simp
  · simp [gestureLogViewSet_destroy, sampleLog]

/-- C4 amended: the ingestion endpoint only appends GestureLog rows, the
presentation page never touches them, and session_stats is read-only,
but the authenticated REST resource does expose destroy and update
actions that remove or replace existing rows. -/
theorem gestureLog_rows_append_only_outside_rest_resource :
    (∀ body user ua now freshId st,
      ∃ tail, (log_gesture body user ua now freshId st).2.logs =
        st.logs ++ tail) ∧
    (∀ sidParam fresh user rowId now st,
      (presentation_view sidParam fresh user rowId now st).2.logs = st.logs) ∧
    (∃ logId st, ∃ l, l ∈ st.logs ∧
      l ∉ (gestureLogViewSet_destroy logId st).logs) ∧
    (∃ logId newRow st, ∃ l, l ∈ st.logs ∧
      l ∉ (gestureLogViewSet_update logId newRow st).logs) := by
  refine ⟨?_, ?_, ?_, ?_⟩
  · intro body user ua now freshId st
    cases body with
    | none => exact ⟨[], by simp [log_gesture]⟩
    | some data => exact ⟨_, rfl⟩
  · intro sidParam fresh user rowId now st
    dsimp only [presentation_view]
    split <;> rfl
  · exact ⟨1, DBState.mk [sampleLog] [], sampleLog, by simp,
      by simp [gestureLogViewSet_destroy, sampleLog]⟩
  · exact ⟨1, sampleLog2, DBState.mk [sampleLog] [], sampleLog, by simp,
      by simp [gestureLogViewSet_update, sampleLog, sampleLog2]⟩
